import Mathlib

/-!
# PR Comprehension Gate — shallow embedding and verification

This file embeds the core of the `pr-comprehension-gate` service
(`src/app/github/diff_parser.py`, `src/app/github/auth.py`,
`src/app/llm/question_generator.py`, `src/app/llm/answer_grader.py`,
`src/app/main.py`) as executable Lean definitions, and proves or refutes
the claims of the specification against them.

Modelling conventions:
* Python dynamic values flowing out of `json.loads` are modelled by the
  `Json` inductive; Python truthiness, `len()`, indexing and iteration are
  modelled by `pyTruthy`, `pyLen`, `pyGetItem`, `pyIter`.
* The LLM completion-and-parse boundary is modelled by `LLMOutcome`:
  the HTTP call raising, `json.loads` raising `JSONDecodeError` on the
  returned (fence-stripped) text, or a successfully parsed `Json` value.
* Outbound HTTP calls performed by an event handler are recorded as
  `Effect`s; calls whose result the handler consumes (token fetch, file
  fetch, comment post) are resolved by an environment record, with an
  `Except` value modelling the possibility that the call raises.
* SHA-256 hex digests are used by the program only for equality-based
  change detection; `Sha256` models the digest as an injective fingerprint
  of the hashed string (bit-level digest values are irrelevant to every
  claim and to the program logic).
* Wall-clock values (`time.time()`, `datetime.now`) are abstract `Nat`s
  supplied by the environment.
-/

set_option maxRecDepth 100000

/-- A JSON value as produced by Python's `json.loads` (numbers restricted to
integers; none of the payloads relevant to the claims carry fractional
numbers). -/
inductive Json where
  | null : Json
  | bool (b : Bool) : Json
  | num (n : Int) : Json
  | str (s : String) : Json
  | arr (elems : List Json) : Json
  | obj (fields : List (String × Json)) : Json

mutual

/-- Structural equality test on `Json`. -/
def Json.beq : Json → Json → Bool
  | .null, .null => true
  | .bool a, .bool b => a == b
  | .num a, .num b => a == b
  | .str a, .str b => a == b
  | .arr a, .arr b => Json.beqList a b
  | .obj a, .obj b => Json.beqObj a b
  | _, _ => false

/-- Structural equality test on lists of `Json`. -/
def Json.beqList : List Json → List Json → Bool
  | [], [] => true
  | a :: as, b :: bs => Json.beq a b && Json.beqList as bs
  | _, _ => false

/-- Structural equality test on `Json` object fields. -/
def Json.beqObj : List (String × Json) → List (String × Json) → Bool
  | [], [] => true
  | a :: as, b :: bs => a.1 == b.1 && Json.beq a.2 b.2 && Json.beqObj as bs
  | _, _ => false

end

mutual

theorem Json.beq_iff : ∀ a b : Json, Json.beq a b = true ↔ a = b
  | .null, b => by cases b <;> simp [Json.beq]
  | .bool x, b => by cases b <;> simp [Json.beq]
  | .num x, b => by cases b <;> simp [Json.beq]
  | .str x, b => by cases b <;> simp [Json.beq]
  | .arr xs, b => by
    cases b <;> simp [Json.beq]
    exact Json.beqList_iff xs _
  | .obj xs, b => by
    cases b <;> simp [Json.beq]
    exact Json.beqObj_iff xs _

theorem Json.beqList_iff : ∀ as bs : List Json, Json.beqList as bs = true ↔ as = bs
  | [], bs => by cases bs <;> simp [Json.beqList]
  | a :: as, [] => by simp [Json.beqList]
  | a :: as, b :: bs => by
    simp [Json.beqList, Json.beq_iff a b, Json.beqList_iff as bs]

theorem Json.beqObj_iff :
    ∀ as bs : List (String × Json), Json.beqObj as bs = true ↔ as = bs
  | [], bs => by cases bs <;> simp [Json.beqObj]
  | a :: as, [] => by simp [Json.beqObj]
  | a :: as, b :: bs => by
    simp [Json.beqObj, Json.beq_iff a.2 b.2, Json.beqObj_iff as bs,
      Prod.ext_iff, and_assoc]

end

instance : BEq Json := ⟨Json.beq⟩

instance : DecidableEq Json :=
  fun a b => decidable_of_iff _ (Json.beq_iff a b)

instance {ε α : Type} [DecidableEq ε] [DecidableEq α] : DecidableEq (Except ε α) := fun
  | .error a, .error b =>
    if h : a = b then isTrue (by rw [h])
    else isFalse (by intro hc; injection hc; contradiction)
  | .error _, .ok _ => isFalse (by intro h; exact Except.noConfusion h)
  | .ok _, .error _ => isFalse (by intro h; exact Except.noConfusion h)
  | .ok a, .ok b =>
    if h : a = b then isTrue (by rw [h])
    else isFalse (by intro hc; injection hc; contradiction)

namespace Json

/-- Python truthiness of a JSON-shaped value: `None`, `False`, `0`, `""`,
`[]` and `{}` are falsy, everything else truthy. -/
def pyTruthy : Json → Bool
  | .null => false
  | .bool b => b
  | .num n => n != 0
  | .str s => s != ""
  | .arr l => !l.isEmpty
  | .obj f => !f.isEmpty

/-- Python `len()` on a JSON-shaped value; `none` models the `TypeError`
raised on `None`, booleans and numbers. -/
def pyLen : Json → Option Nat
  | .str s => some s.length
  | .arr l => some l.length
  | .obj f => some f.length
  | _ => none

/-- Python `value[key]` for a string key: succeeds only on objects that
carry the key (`json.loads` never produces duplicate keys); `none` models
the `KeyError`/`TypeError` raised otherwise. -/
def pyGetItem : Json → String → Option Json
  | .obj fields, k => fields.lookup k
  | _, _ => none

/-- Python `dict.get(key, default)` on an object; `none` models the
`AttributeError` raised when the receiver is not a dict. -/
def pyDictGet : Json → String → Json → Option Json
  | .obj fields, k, dflt => some ((fields.lookup k).getD dflt)
  | _, _, _ => none

/-- Python iteration over a JSON-shaped value (`for x in v`): lists yield
their elements, strings their one-character substrings, dicts their keys;
`none` models the `TypeError` on `None`, booleans and numbers. -/
def pyIter : Json → Option (List Json)
  | .arr l => some l
  | .str s => some (s.data.map fun c => .str (String.mk [c]))
  | .obj f => some (f.map fun kv => .str kv.1)
  | _ => none

/-- Python `repr()` of a JSON-shaped value (string-escape sequences inside
renderings are not modelled; no claim inspects these strings). -/
def pyRepr : Json → String
  | .null => "None"
  | .bool b => if b then "True" else "False"
  | .num n => toString n
  | .str s => "\x27" ++ s ++ "\x27"
  | .arr l => "[" ++ String.intercalate ", " (l.attach.map fun x => pyRepr x.1) ++ "]"
  | .obj f =>
    "\x7b" ++
      String.intercalate ", "
        (f.attach.map fun kv => "\x27" ++ kv.1.1 ++ "\x27: " ++ pyRepr kv.1.2) ++
      "\x7d"
decreasing_by
  · have h := List.sizeOf_lt_of_mem x.2
    simp only [Json.arr.sizeOf_spec]
    omega
  · rcases kv with ⟨⟨k, v⟩, hm⟩
    have h := List.sizeOf_lt_of_mem hm
    simp only [Prod.mk.sizeOf_spec] at h
    simp only [Json.obj.sizeOf_spec]
    omega

/-- Python `str()` of a JSON-shaped value, as used by f-string
interpolation: identical to `repr()` except on strings. -/
def pyStr : Json → String
  | .str s => s
  | j => pyRepr j

end Json

/-- SHA-256 hex digest, modelled as an injective fingerprint of the hashed
string: the program computes `hashlib.sha256(text.encode()).hexdigest()`
and uses the result only in equality comparisons for change detection, so
only the digest's equality semantics matter. -/
structure Sha256 where
  ofString ::
  source : String
deriving DecidableEq

/-- `hashlib.sha256(s.encode()).hexdigest()` at the fingerprint level of
abstraction. -/
def sha256hex (s : String) : Sha256 := ⟨s⟩

/-! ## `src/app/github/diff_parser.py` -/

/-- `SKIP_PATTERNS` — base names skipped when building the transcript. -/
def SKIP_PATTERNS : List String :=
  ["package-lock.json", "yarn.lock", "pnpm-lock.yaml", "Cargo.lock",
   "poetry.lock", "Pipfile.lock", ".gitignore"]

/-- `SKIP_EXTENSIONS` — path suffixes skipped when building the transcript. -/
def SKIP_EXTENSIONS : List String :=
  [".min.js", ".min.css", ".map", ".svg", ".png", ".jpg", ".ico"]

/-- `MAX_TOTAL_LINES` -/
def MAX_TOTAL_LINES : Nat := 5000

/-- `MAX_FILE_PATCH_LINES` -/
def MAX_FILE_PATCH_LINES : Nat := 500

/-- One element of the GitHub PR-files payload, with the dictionary
defaults of `parse_pr_diff` (`.get("filename","")`, `.get("patch","")`,
`.get("status","modified")`, `.get("additions",0)`, `.get("deletions",0)`)
already applied: an absent patch is the empty string. -/
structure FileObj where
  filename : String
  status : String
  additions : Nat
  deletions : Nat
  patch : String
deriving DecidableEq

/-- Python `str.endswith(suffix)`, executed over the character lists. -/
def strEndsWith (s suffix : String) : Bool :=
  suffix.data.isSuffixOf s.data

/-- `filename.rsplit("/", 1)[-1] if "/" in filename else filename` — the
part of the path after the last `/` (the whole path when it has none). -/
def basenameOf (filename : String) : String :=
  String.mk ((filename.data.reverse.takeWhile fun c => c ≠ '/').reverse)

/-- `_should_skip`: skip when the base name (the part after the last `/`)
is in `SKIP_PATTERNS` or the path ends with one of `SKIP_EXTENSIONS`. -/
def should_skip (filename : String) : Bool :=
  SKIP_PATTERNS.contains (basenameOf filename) ||
    SKIP_EXTENSIONS.any fun ext => strEndsWith filename ext

/-- `patch.count("\n") + 1` — the line count the size accounting uses. -/
def patchLineCount (patch : String) : Nat :=
  patch.data.count '\n' + 1

/-- The per-file truncation of `parse_pr_diff`: a patch longer than
`MAX_FILE_PATCH_LINES` lines is cut to that many lines and a truncation
marker is appended. -/
def truncatePatch (patch : String) : String :=
  if patchLineCount patch > MAX_FILE_PATCH_LINES then
    String.intercalate "\n"
        (((patch.data.splitOn '\n').map String.mk).take MAX_FILE_PATCH_LINES)
      ++ "\n... (truncated)"
  else patch

/-- The transcript entry `parse_pr_diff` appends for one surviving file. -/
def formatEntry (f : FileObj) : String :=
  "### " ++ f.filename ++ " (" ++ f.status ++ ": +" ++ toString f.additions
    ++ "/-" ++ toString f.deletions ++ ")\n```diff\n" ++ truncatePatch f.patch ++ "\n```"

/-- The accumulation loop of `parse_pr_diff` (lines 33–62): skips denylisted
and patch-less files, adds each surviving file's line count to the running
total, and on crossing `MAX_TOTAL_LINES` stops with `is_large = true`,
discarding the crossing file and everything after it. -/
def diffLoop : List FileObj → Nat → List String × Bool
  | [], _ => ([], false)
  | f :: rest, total =>
    if should_skip f.filename then diffLoop rest total
    else if f.patch = "" then diffLoop rest total
    else
      let patch_lines := patchLineCount f.patch
      if total + patch_lines > MAX_TOTAL_LINES then ([], true)
      else
        let out := diffLoop rest (total + patch_lines)
        (formatEntry f :: out.1, out.2)

/-- The sentinel transcript for a PR with no surviving file. -/
def noChangesSentinel : String := "(no meaningful code changes)"

/-- `parse_pr_diff(files_payload) -> (formatted_diff, diff_hash, is_large)`. -/
def parse_pr_diff (files_payload : List FileObj) : String × Sha256 × Bool :=
  let out := diffLoop files_payload 0
  let formatted_diff :=
    if out.1.isEmpty then noChangesSentinel else String.intercalate "\n\n" out.1
  (formatted_diff, sha256hex formatted_diff, out.2)

/-! ## `parse_numbered_answers` (`src/app/main.py`, lines 178–187)

`ANSWER_PATTERN = re.compile(r"^\s*(\d+)\.\s*(.+)", re.MULTILINE)` and
`ANSWER_PATTERN.findall(body)` are embedded as an executable scanner with
Python's regex semantics: `^` matches at offset 0 and after each newline,
`\s` may cross newlines, `.` never matches a newline, quantifiers are
greedy with backtracking, and matches are non-overlapping in scan order.
`\s` is modelled over the ASCII whitespace class (the payloads relevant to
the claims contain no non-ASCII whitespace). -/

/-- Python's `\s` on the ASCII range: space, `\t`, `\n`, `\r`, `\x0b`, `\x0c`. -/
def isPySpace (c : Char) : Bool :=
  c = ' ' || c = '\t' || c = '\n' || c = '\r' || c = '\x0b' || c = '\x0c'

/-- The `\s*(.+)` tail of `ANSWER_PATTERN` after the literal dot, with
greedy backtracking: the whitespace run yields back just enough characters
for `(.+)` to start on a non-newline character; returns the text capture
and the remainder after the match. -/
def tailMatch (r : List Char) : Option (List Char × List Char) :=
  match r.dropWhile isPySpace with
  | c :: cs =>
    let txt := (c :: cs).takeWhile fun x => x ≠ '\n'
    some (txt, (c :: cs).drop txt.length)
  | [] =>
    let w := r.takeWhile isPySpace
    let pre := (w.reverse.dropWhile fun x => x = '\n').reverse
    match pre.getLast? with
    | some c => some ([c], w.drop pre.length)
    | none => none

/-- Attempt to match `\s*(\d+)\.\s*(.+)` at the current position; returns
the two captures and the remainder after the match. -/
def pyMatchAt (cs : List Char) : Option (List Char × List Char × List Char) :=
  let r1 := cs.dropWhile isPySpace
  let ds := r1.takeWhile Char.isDigit
  if ds.isEmpty then none
  else
    match r1.dropWhile Char.isDigit with
    | '.' :: r3 =>
      match tailMatch r3 with
      | some (txt, rest) => some (ds, txt, rest)
      | none => none
    | _ => none


/-- The scan loop of `findall`: `atStart` records whether the current
offset is offset 0 or just after a newline (the only offsets where the
`^`-anchored pattern can match); after a match the scan resumes at the
match end. `fuel` bounds the number of scanner steps; every step consumes
at least one character, so the initial character count is sufficient fuel
and the zero-fuel arm is unreachable from `answerMatches`. -/
def findallAux : Nat → List Char → Bool → List (List Char × List Char)
  | 0, _, _ => []
  | _ + 1, [], _ => []
  | fuel + 1, c :: rest, atStart =>
    if atStart then
      match pyMatchAt (c :: rest) with
      | some (ds, txt, after) => (ds, txt) :: findallAux fuel after false
      | none => findallAux fuel rest (c = '\n')
    else findallAux fuel rest (c = '\n')

/-- The `(number, text)` capture pairs of `ANSWER_PATTERN.findall(body)`. -/
def answerMatches (body : String) : List (String × String) :=
  (findallAux body.data.length body.data true).map fun m =>
    (String.mk m.1, String.mk m.2)

/-- Python `int()` of a nonempty digit string, as applied to capture
group 1. -/
def digitsToNat (s : String) : Nat :=
  s.data.foldl (fun n c => 10 * n + (c.toNat - 48)) 0

/-- Python `str.strip()` over the ASCII whitespace class. -/
def pyStrip (s : String) : String :=
  String.mk (((s.data.dropWhile isPySpace).reverse.dropWhile isPySpace).reverse)

/-- The comparison used by `sorted(matches, key=lambda m: int(m[0]))`:
compare the integer values of the first captures. -/
def answerLE (a b : String × String) : Prop :=
  digitsToNat a.1 ≤ digitsToNat b.1

instance : DecidableRel answerLE := fun a b => Nat.decLe _ _

instance : IsTotal (String × String) answerLE := ⟨fun a b => Nat.le_total _ _⟩

instance : IsTrans (String × String) answerLE :=
  ⟨fun a b c hab hbc => Nat.le_trans hab hbc⟩

/-- The stable-by-key sorted match list of `parse_numbered_answers`.
Python's `sorted` is specified as a stable sort; `List.insertionSort` is a
stable sort, and stability together with sortedness and being a
permutation determine the output uniquely, so the two agree. All three
properties of this model are proved in the theorem for the answer-parser
claim. -/
def sortedAnswerPairs (body : String) : List (String × String) :=
  List.insertionSort answerLE (answerMatches body)

/-- `parse_numbered_answers(body)` (`src/app/main.py` lines 181–187). -/
def parse_numbered_answers (body : String) : List String :=
  let ms := answerMatches body
  if ms.isEmpty then []
  else (sortedAnswerPairs body).map fun m => pyStrip m.2

/-! ## The LLM completion boundary

`client.chat.completions.create` followed by `json.loads` on the returned
text is resolved by the environment as one of: the call raising, the text
failing to parse (including an empty or `None` completion), or a parsed
JSON value. The rendered prompt only influences which outcome the
environment produces; no datum flows from the prompt into the handlers'
results. -/

/-- Outcome of one completion-and-parse round trip. -/
inductive LLMOutcome where
  | err : LLMOutcome
  | unparseable : LLMOutcome
  | parsed (j : Json) : LLMOutcome
deriving DecidableEq

/-! ## `src/app/llm/question_generator.py` -/

/-- `MIN_QUESTIONS` -/
def MIN_QUESTIONS : Nat := 3

/-- `MAX_QUESTIONS` -/
def MAX_QUESTIONS : Nat := 5

/-- `_fallback_questions()` -/
def fallback_questions : List Json :=
  [.str "What is the primary purpose of this change?",
   .str "Are there any edge cases that this change does not handle?",
   .str "How does this change interact with the existing codebase?"]

/-- `generate_questions(diff_content, is_large)` (lines 33–51): the value
returned for a given completion outcome. `parsed["questions"]` raising
(`KeyError` on a dict without the key, `TypeError` on a non-dict) lands in
the catch-all `except` and yields the fallback; a list of valid length is
returned unchanged; any other list is sliced to `MAX_QUESTIONS` and the
fallback is substituted only when that slice is empty; a string survives
`len()` and slicing and is returned as a (non-list!) sliced string; other
shapes raise inside the `try` (`len()` or the slice) and yield the
fallback. -/
def generate_questions (outcome : LLMOutcome) : Json :=
  match outcome with
  | .err => .arr fallback_questions
  | .unparseable => .arr fallback_questions
  | .parsed j =>
    match j.pyGetItem "questions" with
    | none => .arr fallback_questions
    | some questions =>
      match questions with
      | .arr qs =>
        if MIN_QUESTIONS ≤ qs.length ∧ qs.length ≤ MAX_QUESTIONS then .arr qs
        else if (qs.take MAX_QUESTIONS).isEmpty then .arr fallback_questions
        else .arr (qs.take MAX_QUESTIONS)
      | .str s =>
        if String.mk (s.data.take MAX_QUESTIONS) = "" then .arr fallback_questions
        else .str (String.mk (s.data.take MAX_QUESTIONS))
      | _ => .arr fallback_questions

/-! ## `src/app/llm/answer_grader.py` -/

/-- The `GradingResult` dataclass. Its fields receive whatever
`parsed["overall_pass"]`, `parsed["answers"]`, `parsed["summary"]` held —
the code performs no type validation on them. -/
structure GradingResult where
  overall_pass : Json
  answers : Json
  summary : Json
deriving DecidableEq

/-- The fixed failure result of the `except` arm (lines 64–70). -/
def gradingFailureResult : GradingResult :=
  ⟨.bool false, .arr [],
   .str "Grading failed due to a system error. Please try again."⟩

/-- `grade_answers(diff_content, questions, answers)` (lines 41–70): the
value returned for a given completion outcome. A raising call, unparseable
text (including empty/`None` content) or a missing key yields the fixed
failure result; a parsed object carrying all three keys is passed through
unvalidated. -/
def grade_answers (outcome : LLMOutcome) : GradingResult :=
  match outcome with
  | .err => gradingFailureResult
  | .unparseable => gradingFailureResult
  | .parsed j =>
    match j.pyGetItem "overall_pass", j.pyGetItem "answers", j.pyGetItem "summary" with
    | some op, some ans, some sm => ⟨op, ans, sm⟩
    | _, _, _ => gradingFailureResult

/-! ## `src/app/github/auth.py` -/

/-- `TOKEN_TTL = 50 * 60` -/
def TOKEN_TTL : Nat := 50 * 60

/-- The module-level `_token_cache : dict[int, tuple[str, float]]`,
mapping installation id to `(token, expires_at)`. -/
abbrev TokenCache := List (Nat × String × Nat)

/-- Python dict assignment `cache[iid] = entry`: replace in place or
append. -/
def cacheSet (cache : TokenCache) (iid : Nat) (entry : String × Nat) : TokenCache :=
  if (cache.lookup iid).isSome then
    cache.map fun e => if e.1 = iid then (iid, entry) else e
  else cache ++ [(iid, entry)]

/-- Outcome of the `httpx` POST to the installation `access_tokens`
endpoint: the call raising, or a response with a status code and an
optional `"token"` field in its JSON body. -/
inductive ExchangeOutcome where
  | raised : ExchangeOutcome
  | response (status : Nat) (tokenField : Option String) : ExchangeOutcome
deriving DecidableEq

/-- The ways `get_installation_token` raises. -/
inductive AuthFailure where
  | keyMalformed : AuthFailure
  | exchangeRaised : AuthFailure
  | httpStatus (status : Nat) : AuthFailure
  | missingTokenField : AuthFailure
deriving DecidableEq

/-- Environment of one `get_installation_token` call: the clock, whether
`jwt.encode` succeeds on the configured signing key, and the exchange
response. -/
structure AuthEnv where
  now : Nat
  jwtResult : Except Unit String
  exchange : ExchangeOutcome

/-- The cache-miss path of `get_installation_token` (lines 36–50):
generate the JWT (raising on a malformed signing key), POST the exchange,
`raise_for_status()` on a non-2xx response, read `resp.json()["token"]`
(a `KeyError` if absent), cache and return. -/
def tokenExchange (env : AuthEnv) (cache : TokenCache) (iid : Nat) :
    Except AuthFailure (String × TokenCache) :=
  match env.jwtResult with
  | .error _ => .error .keyMalformed
  | .ok _ =>
    match env.exchange with
    | .raised => .error .exchangeRaised
    | .response status tokenField =>
      if status < 200 ∨ 300 ≤ status then .error (.httpStatus status)
      else
        match tokenField with
        | none => .error .missingTokenField
        | some token => .ok (token, cacheSet cache iid (token, env.now + TOKEN_TTL))

/-- `get_installation_token(installation_id)` (lines 27–50): serve the
cached token when the entry has not reached its refresh deadline,
otherwise run the exchange path. Returns the token and the resulting
cache. -/
def get_installation_token (env : AuthEnv) (cache : TokenCache) (iid : Nat) :
    Except AuthFailure (String × TokenCache) :=
  match cache.lookup iid with
  | some (token, expires_at) =>
    if env.now < expires_at then .ok (token, cache)
    else tokenExchange env cache iid
  | none => tokenExchange env cache iid

/-! ## `src/app/main.py` — review records, payloads, environments -/

/-- One row of `pr_reviews` (`src/app/models/schemas.py`), restricted to
the fields the handlers read or write. `questions` holds the JSON value
`generate_questions` returned; `grading_result` holds the dict built from
a `GradingResult` at lines 258–262. -/
structure PRReview where
  pr_id : String
  pr_sha : String
  installation_id : Nat
  questions : Json
  diff_hash : Sha256
  reviewer_answers : Option (List String)
  grading_result : Option GradingResult
  status : String
  reviewer_username : Option String
  bot_comment_id : Option Nat
  created_at : Nat
  reviewed_at : Option Nat
deriving DecidableEq

/-- The persisted record store. `pr_id` is a unique key; the handlers
look rows up with `scalar_one_or_none` and insert at most one row per
`pr_id`. -/
abbrev Store := List PRReview

/-- `select(PRReview).where(PRReview.pr_id == pr_id)` + `scalar_one_or_none`. -/
def findReview (store : Store) (pid : String) : Option PRReview :=
  store.find? fun r => r.pr_id = pid

/-- Full-row update of the row keyed by `pid` (ORM `session.add` of a
modified row + `commit`). -/
def updateReview (store : Store) (pid : String) (new : PRReview) : Store :=
  store.map fun r => if r.pr_id = pid then new else r

/-- `f"{owner}/{repo_name}#{pr_number}"` -/
def mkPrId (owner repo : String) (number : Nat) : String :=
  owner ++ "/" ++ repo ++ "#" ++ toString number

/-- The fields `handle_pr_event` reads from a pull-request webhook
payload. -/
structure PRPayload where
  owner : String
  repo : String
  number : Nat
  draft : Bool
  head_sha : String
  installation_id : Nat
deriving DecidableEq

/-- The fields `handle_comment_event` reads from an issue-comment webhook
payload. `authorType` is `comment["user"].get("type")`. -/
structure CommentPayload where
  owner : String
  repo : String
  number : Nat
  author : String
  authorType : Option String
  body : String
  installation_id : Nat
deriving DecidableEq

/-- Outbound calls a handler run performs (in chronological order).
`llmGenerateQuestions`/`llmGradeAnswers` record that the LLM-backed
operation was invoked and with which arguments; the HTTP effects record
the arguments passed to the `api_client` helpers. -/
inductive Effect where
  | postComment (owner repo : String) (number : Nat) (body : String) : Effect
  | setCommitStatus (owner repo sha state description : String) : Effect
  | llmGenerateQuestions (diff_content : String) (is_large : Bool) : Effect
  | llmGradeAnswers (diff_content : String) (questions : Json)
      (answers : List String) : Effect
deriving DecidableEq

/-- Environment resolving the outbound calls of one `handle_pr_event`
run: token fetch, file fetch, the question-generation completion, the
comment post (returning the created comment's id), and the clock. An
`Except.error` models the call raising. -/
structure PREventEnv where
  token : Except Unit String
  files : Except Unit (List FileObj)
  qg : LLMOutcome
  postComment : Except Unit Nat
  now : Nat

/-- Environment resolving the outbound calls of one `handle_comment_event`
run. -/
structure CommentEventEnv where
  token : Except Unit String
  files : Except Unit (List FileObj)
  grade : LLMOutcome
  postComment : Except Unit Nat
  now : Nat

/-- The question comment body (`main.py` lines 118–133). Iterating and
measuring `questions` both raise `TypeError` on non-iterable JSON shapes
(`none`). -/
def questionCommentBody (questions : Json) (is_large : Bool) : Option String :=
  match questions.pyIter, questions.pyLen with
  | some items, some n =>
    let q_list := String.intercalate "\n"
      (items.enum.map fun p => toString (p.1 + 1) ++ ". " ++ Json.pyStr p.2)
    let large_warning :=
      if is_large then
        "\n> **Note:** This is a large PR. Questions focus on the most critical changes.\n"
      else ""
    some ("## PR Comprehension Check\n\n" ++
      "Please answer the following questions to verify your understanding " ++
      "of these changes:\n\n" ++ large_warning ++ q_list ++ "\n\n---\n" ++
      "**How to respond:** Reply to this comment with your answers " ++
      "numbered 1–" ++ toString n ++ ".\n\n" ++
      "Status: ⏳ Awaiting reviewer answers")
  | _, _ => none

/-- The full reset of an existing record (`main.py` lines 139–149):
refresh `pr_sha`, `questions`, `diff_hash`, set `status` back to
`pending_review`, clear `reviewer_answers`, `grading_result`,
`reviewer_username` and `reviewed_at`, point `bot_comment_id` at the new
question comment. -/
def resetRecord (r : PRReview) (p : PRPayload) (questions : Json)
    (diff_hash : Sha256) (comment_id : Nat) : PRReview :=
  { r with
    pr_sha := p.head_sha
    questions := questions
    diff_hash := diff_hash
    status := "pending_review"
    reviewer_answers := none
    grading_result := none
    reviewer_username := none
    bot_comment_id := some comment_id
    reviewed_at := none }

/-- The freshly inserted record (`main.py` lines 151–159, plus the
`created_at` column default). -/
def freshRecord (p : PRPayload) (pr_id : String) (questions : Json)
    (diff_hash : Sha256) (comment_id now : Nat) : PRReview :=
  { pr_id := pr_id
    pr_sha := p.head_sha
    installation_id := p.installation_id
    questions := questions
    diff_hash := diff_hash
    reviewer_answers := none
    grading_result := none
    status := "pending_review"
    reviewer_username := none
    bot_comment_id := some comment_id
    created_at := now
    reviewed_at := none }

/-- The question-generation and persistence phase of `handle_pr_event`
(lines 114–167), reached when the transcript is not the sentinel and the
idempotency guard did not fire. -/
def prQuestionsPhase (env : PREventEnv) (p : PRPayload) (store : Store)
    (pr_id diff_content : String) (diff_hash : Sha256) (is_large : Bool)
    (existing : Option PRReview) : Store × List Effect :=
  let questions := generate_questions env.qg
  let genEff := Effect.llmGenerateQuestions diff_content is_large
  match questionCommentBody questions is_large with
  | none => (store, [genEff])
  | some body =>
    match env.postComment with
    | .error _ => (store, [genEff])
    | .ok comment_id =>
      let store' :=
        match existing with
        | some r =>
          updateReview store pr_id (resetRecord r p questions diff_hash comment_id)
        | none =>
          store ++ [freshRecord p pr_id questions diff_hash comment_id env.now]
      (store',
       [genEff,
        .postComment p.owner p.repo p.number body,
        .setCommitStatus p.owner p.repo p.head_sha "pending"
          "Awaiting reviewer comprehension answers"])

/-- `handle_pr_event(payload)` (lines 74–171) as a transition on the
record store, returning the new store and the outbound effects performed.
The top-level `except` swallows any exception: a raising call ends the run
with the store as committed so far and the effects already performed. -/
def handle_pr_event (env : PREventEnv) (p : PRPayload) (store : Store) :
    Store × List Effect :=
  if p.draft then (store, [])
  else
    let pr_id := mkPrId p.owner p.repo p.number
    match env.token with
    | .error _ => (store, [])
    | .ok _ =>
      match env.files with
      | .error _ => (store, [])
      | .ok files =>
        let pd := parse_pr_diff files
        if pd.1 = noChangesSentinel then
          (store,
           [.setCommitStatus p.owner p.repo p.head_sha "success"
              "No code changes to review"])
        else
          match findReview store pr_id with
          | some existing =>
            if existing.diff_hash = pd.2.1 then (store, [])
            else prQuestionsPhase env p store pr_id pd.1 pd.2.1 pd.2.2 (some existing)
          | none => prQuestionsPhase env p store pr_id pd.1 pd.2.1 pd.2.2 none

/-- The reply posted when fewer answers than questions were found
(lines 233–239). -/
def insufficientAnswersReply (found expected : Nat) : String :=
  "I found " ++ toString found ++ " answer(s) but expected " ++
  toString expected ++ ". Please reply with all answers in numbered format:\n" ++
  "```\n1. Your answer\n2. Your answer\n...\n```"

/-- One block of the feedback comment (lines 281–287); `none` models the
`AttributeError` when an element of `result.answers` is not a dict. -/
def feedbackLine (item : Json) : Option String :=
  match item.pyDictGet "grade" Json.null, item.pyDictGet "question" (.str "N/A"),
      item.pyDictGet "answer" (.str "N/A"), item.pyDictGet "feedback" (.str "") with
  | some g, some q, some a, some f =>
    let icon := if g = Json.str "PASS" then "✅" else "❌"
    some ("**" ++ icon ++ " Q:** " ++ Json.pyStr q ++ "\n**A:** " ++ Json.pyStr a ++
      "\n**Feedback:** " ++ Json.pyStr f ++ "\n")
  | _, _, _, _ => none

/-- The feedback comment body (lines 269–295); `none` models an exception
while iterating `result.answers` or rendering a block. -/
def feedbackBody (result : GradingResult) (comment_author : String) : Option String :=
  let header :=
    if result.overall_pass.pyTruthy then "## ✅ Comprehension Check Passed"
    else "## ❌ Comprehension Check Failed"
  let status_line :=
    if result.overall_pass.pyTruthy then
      "@" ++ comment_author ++
        ", your answers demonstrate solid understanding. The PR is now eligible for merging."
    else
      "@" ++ comment_author ++
        ", some answers indicate gaps in understanding. " ++
        "Please review the code more carefully and reply with revised answers."
  match result.answers.pyIter with
  | none => none
  | some items =>
    match items.mapM feedbackLine with
    | none => none
    | some feedback_lines =>
      some (header ++ "\n\n" ++ status_line ++ "\n\n---\n\n" ++
        String.intercalate "\n" feedback_lines ++
        "\n---\n**Summary:** " ++ Json.pyStr result.summary)

/-- The grading update of the re-loaded record (`main.py` lines 253–267):
persist `reviewer_answers` and `grading_result`, set `status` from
`overall_pass`'s truthiness, record the reviewer and the review time. -/
def gradedRecord (r : PRReview) (answers : List String) (result : GradingResult)
    (author : String) (now : Nat) : PRReview :=
  { r with
    reviewer_answers := some answers
    grading_result := some result
    status := if result.overall_pass.pyTruthy then "passed" else "failed"
    reviewer_username := some author
    reviewed_at := some now }

/-- `handle_comment_event(payload)` (lines 190–314) as a transition on the
record store. The grading call happens before the database update; the
feedback comment and commit status happen after it, so a failure there
leaves the updated store in place. The single-writer-per-PR design
assumption makes the defensive re-load of line 254 read the same store
this run already read. -/
def handle_comment_event (env : CommentEventEnv) (p : CommentPayload)
    (store : Store) : Store × List Effect :=
  if p.authorType = some "Bot" then (store, [])
  else
    let pr_id := mkPrId p.owner p.repo p.number
    match findReview store pr_id with
    | none => (store, [])
    | some review =>
      if review.status = "passed" then (store, [])
      else
        let answers := parse_numbered_answers p.body
        match review.questions.pyLen with
        | none => (store, [])
        | some expected_count =>
          if answers.length < expected_count then
            match env.token with
            | .error _ => (store, [])
            | .ok _ =>
              match env.postComment with
              | .error _ => (store, [])
              | .ok _ =>
                (store,
                 [.postComment p.owner p.repo p.number
                    (insufficientAnswersReply answers.length expected_count)])
          else
            let answers := answers.take expected_count
            match env.token with
            | .error _ => (store, [])
            | .ok _ =>
              match env.files with
              | .error _ => (store, [])
              | .ok files =>
                let diff_content := (parse_pr_diff files).1
                let result := grade_answers env.grade
                let gradeEff :=
                  Effect.llmGradeAnswers diff_content review.questions answers
                match findReview store pr_id with
                | none => (store, [gradeEff])
                | some review2 =>
                  let store' :=
                    updateReview store pr_id
                      (gradedRecord review2 answers result p.author env.now)
                  match feedbackBody result p.author with
                  | none => (store', [gradeEff])
                  | some fb =>
                    match env.postComment with
                    | .error _ => (store', [gradeEff])
                    | .ok _ =>
                      let statusEff :=
                        if result.overall_pass.pyTruthy then
                          Effect.setCommitStatus p.owner p.repo review2.pr_sha
                            "success" "Reviewer comprehension verified"
                        else
                          Effect.setCommitStatus p.owner p.repo review2.pr_sha
                            "failure"
                            "Comprehension check failed — re-review required"
                      (store',
                       [gradeEff, .postComment p.owner p.repo p.number fb, statusEff])

/-- The stores reachable from an empty database through any interleaving
of the two webhook event handlers. -/
inductive Reachable : Store → Prop where
  | init : Reachable []
  | prStep (env : PREventEnv) (p : PRPayload) (s : Store) :
      Reachable s → Reachable (handle_pr_event env p s).1
  | commentStep (env : CommentEventEnv) (p : CommentPayload) (s : Store) :
      Reachable s → Reachable (handle_comment_event env p s).1

/-! ## Claim C3 / C10 — diff-size gating -/

/-- The files `parse_pr_diff` actually accounts for: not denylisted and
with a nonempty patch. -/
def keptFiles (files : List FileObj) : List FileObj :=
  files.filter fun f => !should_skip f.filename && f.patch != ""

/-- Total patch line count of a file list. -/
def sumPatchLines (l : List FileObj) : Nat :=
  (l.map fun f => patchLineCount f.patch).sum

/-- The running patch-line total after the first `n` surviving files. -/
def runTotal (files : List FileObj) (n : Nat) : Nat :=
  sumPatchLines ((keptFiles files).take n)

/-- The accumulation loop restricted to surviving files. -/
def keptLoop : List FileObj → Nat → List String × Bool
  | [], _ => ([], false)
  | f :: rest, total =>
    let patch_lines := patchLineCount f.patch
    if total + patch_lines > MAX_TOTAL_LINES then ([], true)
    else
      let out := keptLoop rest (total + patch_lines)
      (formatEntry f :: out.1, out.2)

theorem diffLoop_eq_keptLoop :
    ∀ (files : List FileObj) (total : Nat),
      diffLoop files total = keptLoop (keptFiles files) total := by
  intro files
  induction files with
  | nil => intro total; simp [diffLoop, keptFiles, keptLoop]
  | cons f rest ih =>
    intro total
    by_cases h1 : should_skip f.filename
    · simp [diffLoop, h1, keptFiles, List.filter_cons, ih total]
    · by_cases h2 : f.patch = ""
      · simp [diffLoop, h1, h2, keptFiles, List.filter_cons, ih]
      · simp [diffLoop, h1, h2, keptFiles, List.filter_cons, keptLoop, ih]

theorem sumPatchLines_cons (f : FileObj) (l : List FileObj) :
    sumPatchLines (f :: l) = patchLineCount f.patch + sumPatchLines l := by
  simp [sumPatchLines]

theorem keptLoop_no_cross :
    ∀ (l : List FileObj) (total : Nat),
      total + sumPatchLines l ≤ MAX_TOTAL_LINES →
      keptLoop l total = (l.map formatEntry, false) := by
  intro l
  induction l with
  | nil => intro total _; simp [keptLoop]
  | cons f rest ih =>
    intro total h
    rw [sumPatchLines_cons] at h
    have hle : ¬(total + patchLineCount f.patch > MAX_TOTAL_LINES) := by omega
    simp only [keptLoop, hle, if_false]
    rw [ih (total + patchLineCount f.patch) (by omega)]
    simp

theorem keptLoop_cross :
    ∀ (l : List FileObj) (k total : Nat),
      k < l.length →
      MAX_TOTAL_LINES < total + sumPatchLines (l.take (k + 1)) →
      total + sumPatchLines (l.take k) ≤ MAX_TOTAL_LINES →
      keptLoop l total = ((l.take k).map formatEntry, true) := by
  intro l
  induction l with
  | nil => intro k total hk; simp at hk
  | cons f rest ih =>
    intro k total hk hcross hbelow
    cases k with
    | zero =>
      have h1 : sumPatchLines ((f :: rest).take (0 + 1)) = patchLineCount f.patch := by
        simp [sumPatchLines]
      rw [h1] at hcross
      have : total + patchLineCount f.patch > MAX_TOTAL_LINES := by omega
      simp [keptLoop, this]
    | succ m =>
      simp only [List.take_succ_cons, sumPatchLines_cons] at hcross hbelow
      have hle : ¬(total + patchLineCount f.patch > MAX_TOTAL_LINES) := by
        have h0 : 0 ≤ sumPatchLines (rest.take m) := Nat.zero_le _
        omega
      simp only [keptLoop, hle, if_false]
      rw [ih m (total + patchLineCount f.patch) (by simpa using Nat.lt_of_succ_lt_succ hk)
        (by omega) (by omega)]
      simp

/-- C3: for every input file list, the running total of patch line counts
over surviving files strictly gates `is_large`: if even the full total
stays at or below `MAX_TOTAL_LINES` then `is_large` is `false` and every
surviving file's entry appears in the transcript; and if the total first
crosses `MAX_TOTAL_LINES` at the `(k+1)`-st surviving file then
`is_large` is `true` and the transcript contains exactly the entries of
the first `k` surviving files — the crossing file and everything after it
are excluded. -/
theorem C3_size_gating (files : List FileObj) (k : Nat) :
    (runTotal files (keptFiles files).length ≤ MAX_TOTAL_LINES →
      (parse_pr_diff files).2.2 = false ∧
      (diffLoop files 0).1 = (keptFiles files).map formatEntry) ∧
    (k < (keptFiles files).length →
      MAX_TOTAL_LINES < runTotal files (k + 1) →
      runTotal files k ≤ MAX_TOTAL_LINES →
      (parse_pr_diff files).2.2 = true ∧
      (diffLoop files 0).1 = ((keptFiles files).take k).map formatEntry) := by
  constructor
  · intro h
    have hfull : runTotal files (keptFiles files).length = sumPatchLines (keptFiles files) := by
      simp [runTotal, List.take_length]
    rw [hfull] at h
    have := keptLoop_no_cross (keptFiles files) 0 (by omega)
    have hd : diffLoop files 0 = ((keptFiles files).map formatEntry, false) := by
      rw [diffLoop_eq_keptLoop]; exact this
    refine ⟨?_, by rw [hd]⟩
    show (diffLoop files 0).2 = false
    rw [hd]
  · intro hk hcross hbelow
    have := keptLoop_cross (keptFiles files) k 0 hk
      (by simpa [runTotal] using hcross) (by simpa [runTotal] using hbelow)
    have hd : diffLoop files 0 = (((keptFiles files).take k).map formatEntry, true) := by
      rw [diffLoop_eq_keptLoop]; exact this
    refine ⟨?_, by rw [hd]⟩
    show (diffLoop files 0).2 = true
    rw [hd]

/-- Six files of 1000 patch lines each: the running total crosses 5000 at
the sixth surviving file. -/
def crossingFiles : List FileObj :=
  [⟨"f1.py", "modified", 1000, 0, String.mk (List.replicate 999 '\n')⟩,
   ⟨"f2.py", "modified", 1000, 0, String.mk (List.replicate 999 '\n')⟩,
   ⟨"f3.py", "modified", 1000, 0, String.mk (List.replicate 999 '\n')⟩,
   ⟨"f4.py", "modified", 1000, 0, String.mk (List.replicate 999 '\n')⟩,
   ⟨"f5.py", "modified", 1000, 0, String.mk (List.replicate 999 '\n')⟩,
   ⟨"f6.py", "modified", 1000, 0, String.mk (List.replicate 999 '\n')⟩]

/-- Witness for C3: on `crossingFiles` the crossing happens at the sixth
file, `is_large` is set and the transcript holds only the first five
files. -/
theorem C3_size_gating_witness :
    (parse_pr_diff crossingFiles).2.2 = true ∧
    (diffLoop crossingFiles 0).1 = ((keptFiles crossingFiles).take 5).map formatEntry :=
  (C3_size_gating crossingFiles 5).2 (by decide) (by decide) (by decide)


/-- A surviving file whose patch alone crosses `MAX_TOTAL_LINES` makes the
loop stop immediately: no entry, `is_large = true`. -/
theorem diffLoop_single_large (f : FileObj) (h1 : should_skip f.filename = false)
    (h2 : ¬(f.patch = "")) (h3 : MAX_TOTAL_LINES < patchLineCount f.patch) :
    diffLoop [f] 0 = ([], true) := by
  have h4 : 0 + patchLineCount f.patch > MAX_TOTAL_LINES := by omega
  simp [diffLoop, h1, h2, h3, h4]

/-- `parse_pr_diff` on a single oversized surviving file yields the
sentinel transcript and `is_large = true`. -/
theorem parse_pr_diff_single_large (f : FileObj) (h1 : should_skip f.filename = false)
    (h2 : ¬(f.patch = "")) (h3 : MAX_TOTAL_LINES < patchLineCount f.patch) :
    parse_pr_diff [f] = (noChangesSentinel, sha256hex noChangesSentinel, true) := by
  simp [parse_pr_diff, diffLoop_single_large f h1 h2 h3]

/-- When token and file fetch succeed and the extracted transcript is the
sentinel, `handle_pr_event` sets a success commit status and neither
creates nor mutates any record. -/
theorem handle_pr_event_sentinel (env : PREventEnv) (p : PRPayload) (store : Store)
    (tok : String) (files : List FileObj)
    (hdraft : p.draft = false) (htok : env.token = .ok tok)
    (hfiles : env.files = .ok files)
    (hsent : (parse_pr_diff files).1 = noChangesSentinel) :
    handle_pr_event env p store =
      (store, [.setCommitStatus p.owner p.repo p.head_sha "success"
        "No code changes to review"]) := by
  simp [handle_pr_event, hdraft, htok, hfiles, hsent]

/-- A single surviving file whose patch alone exceeds `MAX_TOTAL_LINES`
(5002 lines). -/
def C10file : FileObj :=
  ⟨"big.py", "modified", 5001, 0, String.mk (List.replicate 5001 '\n')⟩

/-- Environment for the C10 run: token and file fetch succeed; the LLM
and comment-post stages are never reached. -/
def C10env : PREventEnv :=
  ⟨.ok "token", .ok [C10file], .err, .error (), 0⟩

/-- The pull-request payload for the C10 run. -/
def C10payload : PRPayload := ⟨"octo", "repo", 7, false, "headsha", 42⟩

/-- C10: a single non-skipped file whose patch exceeds 5000 lines makes
`parse_pr_diff` return the no-meaningful-changes sentinel together with
`is_large = true` (the crossing file itself is excluded, so no entry
survives), and `handle_pr_event` then takes the sentinel branch: it sets
the commit status to success and creates no record despite the large
diff. -/
theorem C10_large_single_file :
    parse_pr_diff [C10file] = (noChangesSentinel, sha256hex noChangesSentinel, true) ∧
    should_skip C10file.filename = false ∧
    C10file.patch ≠ "" ∧
    MAX_TOTAL_LINES < patchLineCount C10file.patch ∧
    handle_pr_event C10env C10payload [] =
      ([], [Effect.setCommitStatus "octo" "repo" "headsha" "success"
          "No code changes to review"]) := by
  have h1 : should_skip C10file.filename = false := by decide
  have h2 : ¬(C10file.patch = "") := by decide
  have h3 : MAX_TOTAL_LINES < patchLineCount C10file.patch := by
    have hc : patchLineCount C10file.patch = 5002 := by
      show (List.replicate 5001 '\n').count '\n' + 1 = 5002
      rw [List.count_replicate_self]
    rw [hc]; decide
  have hp := parse_pr_diff_single_large C10file h1 h2 h3
  exact ⟨hp, h1, h2, h3,
    handle_pr_event_sentinel C10env C10payload [] "token" [C10file] rfl rfl rfl
      (by rw [hp])⟩

/-! ## Claim C2 — generate_questions output contract -/

/-- The model response `{"questions": ["a", "b"]}`: parses cleanly, but
the list is shorter than `MIN_QUESTIONS`. -/
def shortListResponse : LLMOutcome :=
  .parsed (.obj [("questions", .arr [.str "a", .str "b"])])

/-- C2 (code bug): the claim — and the function's own docstring, which
promises a list of 3 to 5 questions — fails on the code. For the model
response `{"questions": ["a", "b"]}` the validation branch computes
`questions[:MAX_QUESTIONS] or _fallback_questions()`, and a nonempty
too-short list survives that expression unchanged: `generate_questions`
returns the 2-element list, not the fallback and not a list of length
3–5. -/
theorem C2_short_list_returned :
    generate_questions shortListResponse = .arr [.str "a", .str "b"] ∧
    ¬(∃ qs : List Json, generate_questions shortListResponse = .arr qs ∧
        MIN_QUESTIONS ≤ qs.length ∧ qs.length ≤ MAX_QUESTIONS) := by
  refine ⟨by decide, ?_⟩
  rintro ⟨qs, hq, h3, -⟩
  have he : generate_questions shortListResponse = .arr [.str "a", .str "b"] := by decide
  rw [he] at hq
  have : qs = [.str "a", .str "b"] := by
    injection hq.symm
  subst this
  simp [MIN_QUESTIONS] at h3

/-! ## Claim C4 — grade_answers failure behavior -/

/-- The spec's grading-response shape
`{"overall_pass": bool, "answers": [...], "summary": str}`: an object
whose three keys are present with the stated types. -/
def gradingShapeValid (j : Json) : Bool :=
  (match j.pyGetItem "overall_pass" with | some (.bool _) => true | _ => false) &&
  (match j.pyGetItem "answers" with | some (.arr _) => true | _ => false) &&
  (match j.pyGetItem "summary" with | some (.str _) => true | _ => false)

/-- A response that raises nothing: all three keys are present — but
`overall_pass` is the string `"yes"`, not a boolean, so the response is
shape-invalid in the spec's sense. -/
def typeInvalidGrading : Json :=
  .obj [("overall_pass", .str "yes"), ("answers", .arr []), ("summary", .str "ok")]

/-- Claim C4 as stated: on every unparseable, shape-invalid or erroring
completion, `grade_answers` returns the fixed failure result. -/
def C4_claim : Prop :=
  ∀ o : LLMOutcome,
    (o = .err ∨ o = .unparseable ∨
      ∃ j, o = .parsed j ∧ gradingShapeValid j = false) →
    grade_answers o = gradingFailureResult

/-- C4 counterexample: the response `{"overall_pass": "yes", "answers": [],
"summary": "ok"}` is shape-invalid (non-boolean `overall_pass`), yet
`grade_answers` does not return the fixed failure result — it passes the
fields through unvalidated, and the truthy string later counts as a
pass. -/
theorem C4_claim_counterexample :
    gradingShapeValid typeInvalidGrading = false ∧
    grade_answers (.parsed typeInvalidGrading) ≠ gradingFailureResult ∧
    (grade_answers (.parsed typeInvalidGrading)).overall_pass.pyTruthy = true ∧
    ¬C4_claim := by
  refine ⟨by decide, by decide, by decide, ?_⟩
  intro h
  have := h (.parsed typeInvalidGrading)
    (.inr (.inr ⟨typeInvalidGrading, rfl, by decide⟩))
  exact absurd this (by decide)

/-- All three keys are present (regardless of the values' types) — the
only shape condition the code actually checks, via `KeyError`. -/
def gradingKeysComplete (j : Json) : Bool :=
  (j.pyGetItem "overall_pass").isSome && (j.pyGetItem "answers").isSome &&
    (j.pyGetItem "summary").isSome

/-- C4 (amended): when the grading response is unparseable, is not an
object carrying all three of `overall_pass`/`answers`/`summary`, or the
completion call errors, `grade_answers` returns the fixed failure result —
`overall_pass = false`, empty answer list, the fixed system-error
summary — and on that path never reports a pass; it never raises (it is
total). A parsed response with all three keys present is passed through
without type validation. -/
theorem C4_failure_result (o : LLMOutcome)
    (h : o = .err ∨ o = .unparseable ∨
      ∃ j, o = .parsed j ∧ gradingKeysComplete j = false) :
    grade_answers o = gradingFailureResult ∧
    (grade_answers o).overall_pass = Json.bool false ∧
    (grade_answers o).answers = Json.arr [] ∧
    (grade_answers o).summary =
      Json.str "Grading failed due to a system error. Please try again." ∧
    (grade_answers o).overall_pass.pyTruthy = false := by
  have hfail : grade_answers o = gradingFailureResult := by
    rcases h with h | h | ⟨j, hj, hk⟩
    · subst h; rfl
    · subst h; rfl
    · subst hj
      cases hop : j.pyGetItem "overall_pass" with
      | none => simp [grade_answers, hop]
      | some vop =>
        cases hans : j.pyGetItem "answers" with
        | none => simp [grade_answers, hop, hans]
        | some vans =>
          cases hsm : j.pyGetItem "summary" with
          | none => simp [grade_answers, hop, hans, hsm]
          | some vsm =>
            simp [gradingKeysComplete, hop, hans, hsm] at hk
  rw [hfail]
  exact ⟨rfl, rfl, rfl, rfl, rfl⟩

/-- Witness for C4: a raising completion call yields exactly the fixed
failure result. -/
theorem C4_failure_result_witness :
    grade_answers .err = gradingFailureResult ∧
    (grade_answers .err).overall_pass = Json.bool false ∧
    (grade_answers .err).answers = Json.arr [] ∧
    (grade_answers .err).summary =
      Json.str "Grading failed due to a system error. Please try again." ∧
    (grade_answers .err).overall_pass.pyTruthy = false :=
  C4_failure_result .err (Or.inl rfl)

/-! ## Claim C9 — installation-token failure behavior -/

/-- Whether a `get_installation_token` call raises. -/
def tokenCallFails (env : AuthEnv) (cache : TokenCache) (iid : Nat) : Bool :=
  match get_installation_token env cache iid with
  | .error _ => true
  | .ok _ => false

/-- `jwt.encode` raises on the configured signing key. -/
def signingKeyMalformed (env : AuthEnv) : Bool :=
  match env.jwtResult with
  | .error _ => true
  | .ok _ => false

/-- The exchange POST itself raises. -/
def exchangeErrored (env : AuthEnv) : Bool :=
  match env.exchange with
  | .raised => true
  | .response _ _ => false

/-- Non-2xx status code (what `raise_for_status` raises on). -/
def badStatus (status : Nat) : Bool :=
  status < 200 || 300 ≤ status

/-- The exchange returned a non-success status. -/
def nonSuccessStatus (env : AuthEnv) : Bool :=
  match env.exchange with
  | .response st _ => badStatus st
  | .raised => false

/-- The exchange returned a success status whose JSON body lacks the
`"token"` field. -/
def missingToken (env : AuthEnv) : Bool :=
  match env.exchange with
  | .response st none => !badStatus st
  | _ => false

/-- The token served without an exchange: the cached entry for the
installation, if it has not reached its refresh deadline. -/
def cacheFresh (cache : TokenCache) (iid : Nat) (now : Nat) : Option String :=
  match cache.lookup iid with
  | some (tok, exp) => if now < exp then some tok else none
  | none => none

/-- Claim C9 as stated: `get_installation_token` fails exactly when the
signing key is malformed, the exchange call errors, or the exchange
returns a non-success status. -/
def C9_claim : Prop :=
  ∀ (env : AuthEnv) (cache : TokenCache) (iid : Nat),
    tokenCallFails env cache iid =
      (signingKeyMalformed env || exchangeErrored env || nonSuccessStatus env)

/-- C9 counterexample: on an empty cache with a well-formed key and a
`201` exchange response whose body lacks the `"token"` field, none of the
claim's three failure conditions holds, yet the call fails — the
`KeyError` from `resp.json()["token"]` propagates. -/
theorem C9_claim_counterexample :
    get_installation_token ⟨0, .ok "jwt", .response 201 none⟩ [] 1 =
      .error .missingTokenField ∧
    tokenCallFails ⟨0, .ok "jwt", .response 201 none⟩ [] 1 = true ∧
    (signingKeyMalformed ⟨0, .ok "jwt", .response 201 none⟩ ||
      exchangeErrored ⟨0, .ok "jwt", .response 201 none⟩ ||
      nonSuccessStatus ⟨0, .ok "jwt", .response 201 none⟩) = false ∧
    ¬C9_claim := by
  refine ⟨by decide, by decide, by decide, ?_⟩
  intro h
  have := h ⟨0, .ok "jwt", .response 201 none⟩ [] 1
  rw [show tokenCallFails ⟨0, .ok "jwt", .response 201 none⟩ [] 1 = true from by decide]
    at this
  exact absurd this (by decide)

/-- On a cache miss or a stale entry, `get_installation_token` runs the
exchange path. -/
theorem get_token_miss (env : AuthEnv) (cache : TokenCache) (iid : Nat)
    (hmiss : cacheFresh cache iid env.now = none) :
    get_installation_token env cache iid = tokenExchange env cache iid := by
  unfold cacheFresh at hmiss
  unfold get_installation_token
  cases hl : cache.lookup iid with
  | none => rfl
  | some p =>
    obtain ⟨t, e⟩ := p
    rw [hl] at hmiss
    simp only at hmiss
    by_cases hlt : env.now < e
    · rw [if_pos hlt] at hmiss; simp at hmiss
    · simp [hlt]

/-- C9 (amended): while the cache entry for the installation is fresh,
the cached token is served unchanged with no exchange and no failure;
on a cache miss (or stale entry) the call fails exactly when the signing
key is malformed, the exchange call errors, the exchange returns a
non-success status, or the success response lacks the `"token"` field;
and on the successful exchange path the fresh token is returned and
cached with the refresh deadline `now + TOKEN_TTL`. -/
theorem C9_token_characterization (env : AuthEnv) (cache : TokenCache) (iid : Nat) :
    (∀ tok, cacheFresh cache iid env.now = some tok →
      get_installation_token env cache iid = .ok (tok, cache)) ∧
    (cacheFresh cache iid env.now = none →
      tokenCallFails env cache iid =
        (signingKeyMalformed env || exchangeErrored env || nonSuccessStatus env ||
          missingToken env)) ∧
    (∀ st tok, cacheFresh cache iid env.now = none →
      signingKeyMalformed env = false →
      env.exchange = .response st (some tok) →
      badStatus st = false →
      get_installation_token env cache iid =
        .ok (tok, cacheSet cache iid (tok, env.now + TOKEN_TTL))) := by
  refine ⟨?_, ?_, ?_⟩
  · intro tok hfresh
    unfold cacheFresh at hfresh
    unfold get_installation_token
    cases hl : cache.lookup iid with
    | none => rw [hl] at hfresh; simp at hfresh
    | some p =>
      obtain ⟨t, e⟩ := p
      rw [hl] at hfresh
      simp only at hfresh
      by_cases hlt : env.now < e
      · rw [if_pos hlt] at hfresh
        injection hfresh with h1
        subst h1
        simp [hlt]
      · rw [if_neg hlt] at hfresh; simp at hfresh
  · intro hmiss
    unfold tokenCallFails
    rw [get_token_miss env cache iid hmiss]
    unfold tokenExchange
    cases hj : env.jwtResult with
    | error u => simp [signingKeyMalformed, hj]
    | ok j =>
      simp only [signingKeyMalformed, hj]
      cases hx : env.exchange with
      | raised => simp [exchangeErrored, hx]
      | response st tf =>
        simp only [exchangeErrored, nonSuccessStatus, missingToken, hx]
        by_cases hst : st < 200 ∨ 300 ≤ st
        · have hb : badStatus st = true := by
            unfold badStatus
            rcases hst with h | h <;> simp [h]
          rw [if_pos hst]
          simp [hb]
        · have hb : badStatus st = false := by
            unfold badStatus
            simp only [Bool.or_eq_false_iff, decide_eq_false_iff_not]
            exact ⟨fun h => hst (Or.inl h), fun h => hst (Or.inr h)⟩
          rw [if_neg hst]
          cases tf with
          | none => simp [hb]
          | some tok => simp [hb]
  · intro st tok hmiss hkey hx hb
    rw [get_token_miss env cache iid hmiss]
    unfold tokenExchange
    cases hj : env.jwtResult with
    | error u => simp [signingKeyMalformed, hj] at hkey
    | ok j =>
      rw [hx]
      have hnot : ¬(st < 200 ∨ 300 ≤ st) := by
        unfold badStatus at hb
        simp only [Bool.or_eq_false_iff, decide_eq_false_iff_not] at hb
        rintro (h | h)
        · exact hb.1 h
        · exact hb.2 h
      simp [hnot]

/-- Witness for C9: a fresh cached entry is served without an exchange —
even though this environment's signing key is malformed and its exchange
would raise, the call succeeds with the cached token. -/
theorem C9_token_characterization_witness :
    get_installation_token ⟨50, .error (), .raised⟩ [(1, "cached", 100)] 1 =
      .ok ("cached", [(1, "cached", 100)]) :=
  (C9_token_characterization ⟨50, .error (), .raised⟩ [(1, "cached", 100)] 1).1
    "cached" (by decide)

/-! ## Claim C7 — the answer parser -/

/-- The sort key `int(m[0])` of a match pair. -/
def answerKey (m : String × String) : Nat := digitsToNat m.1

theorem filter_orderedInsert_answer (k : Nat) (a : String × String)
    (l : List (String × String)) :
    (List.orderedInsert answerLE a l).filter (fun x => answerKey x == k) =
      if answerKey a = k then a :: l.filter (fun x => answerKey x == k)
      else l.filter (fun x => answerKey x == k) := by
  induction l with
  | nil =>
    by_cases hk : answerKey a = k <;>
      simp [List.orderedInsert, List.filter_cons, hk]
  | cons b t ih =>
    by_cases hab : answerLE a b
    · have hstep : List.orderedInsert answerLE a (b :: t) = a :: b :: t := by
        simp [List.orderedInsert, hab]
      rw [hstep]
      by_cases hk : answerKey a = k <;> simp [List.filter_cons, hk]
    · have hstep : List.orderedInsert answerLE a (b :: t) =
          b :: List.orderedInsert answerLE a t := by
        simp [List.orderedInsert, hab]
      rw [hstep]
      by_cases hbk : answerKey b = k
      · have hak : answerKey a ≠ k := by
          unfold answerLE at hab
          unfold answerKey at hbk ⊢
          omega
        simp [List.filter_cons, hbk, hak, ih]
      · simp [List.filter_cons, hbk, ih]

theorem filter_insertionSort_answer (k : Nat) (l : List (String × String)) :
    (List.insertionSort answerLE l).filter (fun x => answerKey x == k) =
      l.filter (fun x => answerKey x == k) := by
  induction l with
  | nil => rfl
  | cons a t ih =>
    simp only [List.insertionSort]
    rw [filter_orderedInsert_answer]
    by_cases hk : answerKey a = k <;> simp [List.filter_cons, hk, ih]

/-- C7: `parse_numbered_answers` collects the `(number, text)` pairs of
the multiline matches of `^\s*(\d+)\.\s*(.+)`, sorts them ascending by
number with ties kept in original scan order and no deduplication, and
returns the stripped texts in that order. Concretely,
`parse("2. second\n1. first\n3. third") = ["first", "second", "third"]`;
an input with no matching line yields the empty list; the sorted pair
list is a permutation of the match list, is sorted by key, and restricted
to any single key value equals the match list so restricted (stability);
and on any input with matches the result is the stripped texts of the
sorted pairs. -/
theorem C7_parse_numbered_answers :
    parse_numbered_answers "2. second\n1. first\n3. third" =
      ["first", "second", "third"] ∧
    (∀ s, answerMatches s = [] → parse_numbered_answers s = []) ∧
    (∀ s, List.Perm (sortedAnswerPairs s) (answerMatches s)) ∧
    (∀ s, (sortedAnswerPairs s).Pairwise answerLE) ∧
    (∀ s k, (sortedAnswerPairs s).filter (fun m => answerKey m == k) =
      (answerMatches s).filter (fun m => answerKey m == k)) ∧
    (∀ s, answerMatches s ≠ [] →
      parse_numbered_answers s = (sortedAnswerPairs s).map fun m => pyStrip m.2) := by
  refine ⟨by decide, ?_, ?_, ?_, ?_, ?_⟩
  · intro s h
    simp [parse_numbered_answers, h]
  · intro s
    exact List.perm_insertionSort answerLE (answerMatches s)
  · intro s
    exact List.sorted_insertionSort answerLE (answerMatches s)
  · intro s k
    exact filter_insertionSort_answer k (answerMatches s)
  · intro s h
    simp [parse_numbered_answers, h, sortedAnswerPairs]

/-- Witness for C7: a text with no numbered line parses to the empty
list. -/
theorem C7_parse_numbered_answers_witness :
    parse_numbered_answers "no numbered lines here" = [] :=
  C7_parse_numbered_answers.2.1 "no numbered lines here" (by decide)

/-! ## Store lemmas and handler case analyses -/

theorem find_of_findReview {store : Store} {pid : String} {r : PRReview}
    (h : findReview store pid = some r) : r.pr_id = pid := by
  unfold findReview at h
  have := List.find?_some h
  simpa using this

theorem findReview_updateReview (store : Store) (pid : String) (new : PRReview)
    (hnew : new.pr_id = pid) {r : PRReview}
    (hfound : findReview store pid = some r) :
    findReview (updateReview store pid new) pid = some new := by
  unfold findReview updateReview at *
  induction store with
  | nil => simp at hfound
  | cons a t ih =>
    by_cases ha : a.pr_id = pid
    · simp [List.find?_cons, ha, hnew]
    · simp only [List.map_cons, if_neg ha]
      rw [List.find?_cons_of_neg _ (by simp [ha])] at hfound
      rw [List.find?_cons_of_neg _ (by simp [ha])]
      exact ih hfound

theorem mem_updateReview {store : Store} {pid : String} {new r' : PRReview}
    (h : r' ∈ updateReview store pid new) : r' ∈ store ∨ r' = new := by
  unfold updateReview at h
  obtain ⟨a, ha, hfa⟩ := List.mem_map.mp h
  by_cases hp : a.pr_id = pid
  · right; rw [if_pos hp] at hfa; exact hfa.symm
  · left; rw [if_neg hp] at hfa; rw [← hfa]; exact ha

/-- Everything `handle_pr_event` can do to the store: leave it unchanged,
reset the existing record for the event's PR after a fingerprint change,
or insert a fresh record when none exists. -/
theorem handle_pr_event_cases (env : PREventEnv) (p : PRPayload) (store : Store) :
    (handle_pr_event env p store).1 = store ∨
    (∃ files r cid,
      env.files = .ok files ∧
      (parse_pr_diff files).1 ≠ noChangesSentinel ∧
      findReview store (mkPrId p.owner p.repo p.number) = some r ∧
      r.diff_hash ≠ (parse_pr_diff files).2.1 ∧
      env.postComment = .ok cid ∧
      (handle_pr_event env p store).1 =
        updateReview store (mkPrId p.owner p.repo p.number)
          (resetRecord r p (generate_questions env.qg) (parse_pr_diff files).2.1 cid)) ∨
    (∃ files cid,
      env.files = .ok files ∧
      (parse_pr_diff files).1 ≠ noChangesSentinel ∧
      findReview store (mkPrId p.owner p.repo p.number) = none ∧
      env.postComment = .ok cid ∧
      (handle_pr_event env p store).1 =
        store ++ [freshRecord p (mkPrId p.owner p.repo p.number)
          (generate_questions env.qg) (parse_pr_diff files).2.1 cid env.now]) := by
  unfold handle_pr_event
  by_cases hd : p.draft
  · left; simp [hd]
  · simp only [hd, Bool.false_eq_true, if_false]
    cases ht : env.token with
    | error e => left; rfl
    | ok tok =>
      cases hf : env.files with
      | error e => left; rfl
      | ok files =>
        by_cases hs : (parse_pr_diff files).1 = noChangesSentinel
        · left; simp [hs]
        · simp only [hs, if_false]
          cases hfd : findReview store (mkPrId p.owner p.repo p.number) with
          | some r =>
            by_cases hh : r.diff_hash = (parse_pr_diff files).2.1
            · left; simp [hh]
            · simp only [hh, if_false]
              unfold prQuestionsPhase
              cases hb : questionCommentBody (generate_questions env.qg)
                  (parse_pr_diff files).2.2 with
              | none => left; simp [hb]
              | some body =>
                cases hp : env.postComment with
                | error e => left; simp [hb, hp]
                | ok cid =>
                  right; left
                  refine ⟨files, r, cid, rfl, hs, rfl, hh, rfl, ?_⟩
                  simp [hb, hp]
          | none =>
            unfold prQuestionsPhase
            cases hb : questionCommentBody (generate_questions env.qg)
                (parse_pr_diff files).2.2 with
            | none => left; simp [hb]
            | some body =>
              cases hp : env.postComment with
              | error e => left; simp [hb, hp]
              | ok cid =>
                right; right
                refine ⟨files, cid, rfl, hs, rfl, rfl, ?_⟩
                simp [hb, hp]

/-- Everything `handle_comment_event` can do to the store: leave it
unchanged, or — when the comment is not from a bot, the PR is tracked,
not yet passed, and carries at least as many parsed answers as
questions — replace the record by its graded update. -/
theorem handle_comment_event_cases (env : CommentEventEnv) (p : CommentPayload)
    (store : Store) :
    (handle_comment_event env p store).1 = store ∨
    (∃ r n,
      p.authorType ≠ some "Bot" ∧
      findReview store (mkPrId p.owner p.repo p.number) = some r ∧
      r.status ≠ "passed" ∧
      r.questions.pyLen = some n ∧
      n ≤ (parse_numbered_answers p.body).length ∧
      (handle_comment_event env p store).1 =
        updateReview store (mkPrId p.owner p.repo p.number)
          (gradedRecord r ((parse_numbered_answers p.body).take n)
            (grade_answers env.grade) p.author env.now)) := by
  unfold handle_comment_event
  by_cases hbot : p.authorType = some "Bot"
  · left; simp [hbot]
  · simp only [hbot, if_false]
    cases hfd : findReview store (mkPrId p.owner p.repo p.number) with
    | none => left; rfl
    | some r =>
      by_cases hpass : r.status = "passed"
      · left; simp [hpass]
      · simp only [hpass, if_false]
        cases hlen : r.questions.pyLen with
        | none => left; simp [hlen]
        | some n =>
          by_cases hshort : (parse_numbered_answers p.body).length < n
          · left
            cases ht : env.token with
            | error e => simp [hshort, ht]
            | ok tok =>
              cases hp : env.postComment with
              | error e => simp [hshort, ht, hp]
              | ok cid => simp [hshort, ht, hp]
          · cases ht : env.token with
            | error e => left; simp [hshort, ht]
            | ok tok =>
              cases hf : env.files with
              | error e => left; simp [hshort, ht, hf]
              | ok files =>
                right
                refine ⟨r, n, hbot, rfl, hpass, hlen, Nat.le_of_not_lt hshort, ?_⟩
                cases hb : feedbackBody (grade_answers env.grade) p.author with
                | none => simp [hshort, ht, hf, hb]
                | some fb =>
                  cases hp : env.postComment with
                  | error e => simp [hshort, ht, hf, hb, hp]
                  | ok cid => simp [hshort, ht, hf, hb, hp]

/-! ## Claim C1 — idempotency guard -/

/-- Claim C1 as stated: whenever a record exists for the event's `pr_id`
and its stored `diff_hash` equals the fingerprint computed from the
fetched files, the handler is a no-op — store unchanged and no effect
performed. -/
def C1_claim : Prop :=
  ∀ (env : PREventEnv) (p : PRPayload) (store : Store) (r : PRReview)
    (files : List FileObj),
    env.files = .ok files →
    findReview store (mkPrId p.owner p.repo p.number) = some r →
    r.diff_hash = (parse_pr_diff files).2.1 →
    handle_pr_event env p store = (store, [])

/-- A record whose stored `diff_hash` is the fingerprint of the sentinel
transcript. The handlers never create such a record, but the claim
quantifies over every state in which a record exists. -/
def C1record : PRReview :=
  { pr_id := "o/r#1", pr_sha := "oldsha", installation_id := 5,
    questions := .arr [.str "q1", .str "q2", .str "q3"],
    diff_hash := sha256hex noChangesSentinel,
    reviewer_answers := none, grading_result := none,
    status := "pending_review", reviewer_username := none,
    bot_comment_id := some 1, created_at := 0, reviewed_at := none }

/-- Environment for the C1 counterexample: the file fetch returns an empty
list, whose transcript is the sentinel. -/
def C1env : PREventEnv := ⟨.ok "tok", .ok [], .err, .error (), 0⟩

/-- The pull-request payload of the C1 runs. -/
def C1payload : PRPayload := ⟨"o", "r", 1, false, "newsha", 5⟩

/-- C1 counterexample: with an empty fetched-file list the transcript is
the sentinel, and the sentinel branch at `main.py` line 97 runs before the
idempotency lookup of line 104 — so even though a record exists whose
stored `diff_hash` equals the freshly computed fingerprint, the handler
sets a success commit status: it is not a no-op as the claim states. -/
theorem C1_claim_counterexample :
    findReview [C1record] (mkPrId "o" "r" 1) = some C1record ∧
    C1record.diff_hash = (parse_pr_diff []).2.1 ∧
    handle_pr_event C1env C1payload [C1record] =
      ([C1record], [Effect.setCommitStatus "o" "r" "newsha" "success"
        "No code changes to review"]) ∧
    ¬C1_claim := by
  refine ⟨by decide, by decide, by decide, ?_⟩
  intro h
  have hno := h C1env C1payload [C1record] C1record [] rfl (by decide) (by decide)
  have hyes : handle_pr_event C1env C1payload [C1record] =
      ([C1record], [Effect.setCommitStatus "o" "r" "newsha" "success"
        "No code changes to review"]) := by decide
  rw [hyes] at hno
  exact absurd hno (by decide)

/-- C1 (amended): whenever a record exists for the event's `pr_id`, its
stored `diff_hash` equals the fingerprint computed from the fetched
files, and the extracted transcript is not the no-changes sentinel (true
of every record fingerprint the handlers themselves store), the handler
is a no-op: no comment is posted, no commit status is set, no LLM call is
made, and the store — in particular every field of the record — is
unchanged. -/
theorem C1_idempotent_noop (env : PREventEnv) (p : PRPayload) (store : Store)
    (r : PRReview) (files : List FileObj)
    (hfiles : env.files = .ok files)
    (hfound : findReview store (mkPrId p.owner p.repo p.number) = some r)
    (hhash : r.diff_hash = (parse_pr_diff files).2.1)
    (hnsent : (parse_pr_diff files).1 ≠ noChangesSentinel) :
    handle_pr_event env p store = (store, []) := by
  unfold handle_pr_event
  by_cases hd : p.draft
  · simp [hd]
  · simp only [hd, Bool.false_eq_true, if_false]
    cases ht : env.token with
    | error e => rfl
    | ok tok =>
      rw [hfiles]
      simp only [hnsent, if_false]
      rw [hfound]
      simp [hhash]

/-- A one-file fetch whose transcript is not the sentinel. -/
def C1wfiles : List FileObj := [⟨"a.py", "modified", 1, 0, "+x"⟩]

/-- A record storing exactly the fingerprint of `C1wfiles`. -/
def C1wrecord : PRReview :=
  { pr_id := "o/r#1", pr_sha := "oldsha", installation_id := 5,
    questions := .arr [.str "q1", .str "q2", .str "q3"],
    diff_hash := (parse_pr_diff C1wfiles).2.1,
    reviewer_answers := none, grading_result := none,
    status := "pending_review", reviewer_username := none,
    bot_comment_id := some 1, created_at := 0, reviewed_at := none }

/-- Environment for the C1 witness run. -/
def C1wenv : PREventEnv := ⟨.ok "tok", .ok C1wfiles, .err, .error (), 0⟩

/-- Witness for C1 (amended): re-delivering the same files against the
stored record is a no-op. -/
theorem C1_idempotent_noop_witness :
    handle_pr_event C1wenv C1payload [C1wrecord] = ([C1wrecord], []) :=
  C1_idempotent_noop C1wenv C1payload [C1wrecord] C1wrecord C1wfiles rfl
    (by decide) (by decide) (by decide)

/-! ## Claim C5 — insufficient answers -/

/-- C5: a comment on a tracked, not-yet-passed PR whose parsed answer
list is shorter than the record's question count makes the handler post
exactly the fixed-format instructional reply; grading is never invoked
(no grading effect, no grading call) and the store — in particular
`reviewer_answers` and every other field of the record — is unchanged. -/
theorem C5_insufficient_answers (env : CommentEventEnv) (p : CommentPayload)
    (store : Store) (r : PRReview) (n : Nat) (tok : String) (cid : Nat)
    (hbot : p.authorType ≠ some "Bot")
    (hfound : findReview store (mkPrId p.owner p.repo p.number) = some r)
    (hnp : r.status ≠ "passed")
    (hlen : r.questions.pyLen = some n)
    (hshort : (parse_numbered_answers p.body).length < n)
    (htok : env.token = .ok tok)
    (hpost : env.postComment = .ok cid) :
    handle_comment_event env p store =
      (store, [.postComment p.owner p.repo p.number
        (insufficientAnswersReply (parse_numbered_answers p.body).length n)]) := by
  unfold handle_comment_event
  simp only [hbot, if_false]
  rw [hfound]
  simp only [hnp, if_false]
  rw [hlen]
  simp [hshort, htok, hpost]

/-- A tracked record with three questions, awaiting review. -/
def C5record : PRReview :=
  { pr_id := "o/r#2", pr_sha := "sha2", installation_id := 5,
    questions := .arr [.str "q1", .str "q2", .str "q3"],
    diff_hash := sha256hex "d", reviewer_answers := none,
    grading_result := none, status := "pending_review",
    reviewer_username := none, bot_comment_id := some 9,
    created_at := 0, reviewed_at := none }

/-- A reviewer comment carrying only two numbered answers. -/
def C5payload : CommentPayload :=
  ⟨"o", "r", 2, "alice", some "User", "1. a\n2. b", 5⟩

/-- Environment for the C5 witness run: the file fetch and grading stages
are never reached. -/
def C5env : CommentEventEnv := ⟨.ok "t", .error (), .err, .ok 3, 7⟩

/-- Witness for C5: two answers against three questions triggers exactly
the instructional reply and leaves the record untouched. -/
theorem C5_insufficient_answers_witness :
    handle_comment_event C5env C5payload [C5record] =
      ([C5record], [.postComment "o" "r" 2 (insufficientAnswersReply 2 3)]) :=
  C5_insufficient_answers C5env C5payload [C5record] C5record 3 "t" 3
    (by decide) (by decide) (by decide) (by decide) (by decide) rfl rfl

/-! ## Claim C6 — no transition out of `passed` except the full reset -/

/-- C6: a record whose status is `passed` is never changed by a comment
event — the handler returns with no grading and no effect — and the only
way a pull-request event moves the record out of `passed` is the full
reset: the new record carries the freshly computed fingerprint, which
differs from the stored `diff_hash`, its status is `pending_review`, and
`reviewer_answers`, `grading_result`, `reviewer_username` and
`reviewed_at` are all cleared. -/
theorem C6_passed_frozen :
    (∀ (env : CommentEventEnv) (p : CommentPayload) (store : Store) (r : PRReview),
      findReview store (mkPrId p.owner p.repo p.number) = some r →
      r.status = "passed" →
      handle_comment_event env p store = (store, [])) ∧
    (∀ (env : PREventEnv) (p : PRPayload) (store : Store) (r r2 : PRReview),
      findReview store (mkPrId p.owner p.repo p.number) = some r →
      r.status = "passed" →
      findReview (handle_pr_event env p store).1
        (mkPrId p.owner p.repo p.number) = some r2 →
      r2 = r ∨
        (∃ files, env.files = .ok files ∧
          r2.diff_hash = (parse_pr_diff files).2.1 ∧
          r2.diff_hash ≠ r.diff_hash ∧
          r2.status = "pending_review" ∧
          r2.reviewer_answers = none ∧ r2.grading_result = none ∧
          r2.reviewer_username = none ∧ r2.reviewed_at = none)) := by
  constructor
  · intro env p store r hfound hpass
    unfold handle_comment_event
    by_cases hbot : p.authorType = some "Bot"
    · simp [hbot]
    · simp only [hbot, if_false]
      rw [hfound]
      simp [hpass]
  · intro env p store r r2 hfound hpass hr2
    rcases handle_pr_event_cases env p store with hsame |
      ⟨files, r0, cid, hf, hs, hfd, hh, hpc, hst⟩ |
      ⟨files, cid, hf, hs, hfd, hpc, hst⟩
    · rw [hsame, hfound] at hr2
      left
      injection hr2 with h
      exact h.symm
    · have hr0 : r0 = r := by
        rw [hfound] at hfd
        injection hfd with h
        exact h.symm
      subst hr0
      have hpid : (resetRecord r0 p (generate_questions env.qg)
          (parse_pr_diff files).2.1 cid).pr_id = mkPrId p.owner p.repo p.number := by
        have := find_of_findReview hfound
        simpa [resetRecord] using this
      have hfr := findReview_updateReview store (mkPrId p.owner p.repo p.number)
        (resetRecord r0 p (generate_questions env.qg) (parse_pr_diff files).2.1 cid)
        hpid hfound
      rw [hst, hfr] at hr2
      injection hr2 with h
      right
      refine ⟨files, hf, ?_, ?_, ?_, ?_, ?_, ?_, ?_⟩ <;>
        simp [← h, resetRecord, hh]
      intro hc
      exact hh hc.symm
    · rw [hfound] at hfd
      exact absurd hfd (by simp)

/-- A record that already passed the comprehension check. -/
def C6record : PRReview :=
  { pr_id := "o/r#3", pr_sha := "sha3", installation_id := 5,
    questions := .arr [.str "q1", .str "q2", .str "q3"],
    diff_hash := sha256hex "d3", reviewer_answers := some ["a", "b", "c"],
    grading_result := none, status := "passed",
    reviewer_username := some "alice", bot_comment_id := some 9,
    created_at := 0, reviewed_at := some 1 }

/-- A follow-up reviewer comment on the passed PR. -/
def C6payload : CommentPayload :=
  ⟨"o", "r", 3, "alice", some "User", "1. x\n2. y\n3. z", 5⟩

/-- Environment for the C6 witness run: nothing outbound is ever
reached. -/
def C6env : CommentEventEnv := ⟨.error (), .error (), .err, .error (), 0⟩

/-- Witness for C6: a comment event on a passed record changes nothing
and performs no effect. -/
theorem C6_passed_frozen_witness :
    handle_comment_event C6env C6payload [C6record] = ([C6record], []) :=
  C6_passed_frozen.1 C6env C6payload [C6record] C6record (by decide) (by decide)

/-! ## Claim C8 — reviewer_answers length invariant -/

/-- The record invariant of the data model: whenever `reviewer_answers`
is present, its length equals the record's question count (Python
`len(questions)`). -/
def reviewInv (store : Store) : Prop :=
  ∀ r ∈ store, ∀ ans, r.reviewer_answers = some ans →
    r.questions.pyLen = some ans.length

/-- C8: in every store reachable through the two event handlers (the
single-writer-per-PR design assumption), every record with
`reviewer_answers` present has exactly `len(questions)` answers: the
comment handler truncates surplus answers to the question count before
persisting, and every pull-request write clears `reviewer_answers`. -/
theorem C8_answers_length_invariant (store : Store) (h : Reachable store) :
    reviewInv store := by
  induction h with
  | init => intro r hr; simp at hr
  | prStep env p s hs ih =>
    rcases handle_pr_event_cases env p s with hsame |
      ⟨files, r0, cid, hf, hsen, hfd, hh, hpc, hst⟩ |
      ⟨files, cid, hf, hsen, hfd, hpc, hst⟩
    · rw [hsame]; exact ih
    · rw [hst]
      intro r hr ans hans
      rcases mem_updateReview hr with hmem | heq
      · exact ih r hmem ans hans
      · subst heq
        simp [resetRecord] at hans
    · rw [hst]
      intro r hr ans hans
      rcases List.mem_append.mp hr with hmem | hmem
      · exact ih r hmem ans hans
      · have heq : r = freshRecord p (mkPrId p.owner p.repo p.number)
            (generate_questions env.qg) (parse_pr_diff files).2.1 cid env.now := by
          simpa using hmem
        subst heq
        simp [freshRecord] at hans
  | commentStep env p s hs ih =>
    rcases handle_comment_event_cases env p s with hsame |
      ⟨r0, n, hbot, hfd, hpass, hlen, hle, hst⟩
    · rw [hsame]; exact ih
    · rw [hst]
      intro r hr ans hans
      rcases mem_updateReview hr with hmem | heq
      · exact ih r hmem ans hans
      · subst heq
        simp only [gradedRecord] at hans ⊢
        simp only [Option.some.injEq] at hans
        rw [← hans, hlen, List.length_take]
        congr 1
        omega

/-- The single fetched file of the C8 witness run. -/
def C8wfiles : List FileObj := [⟨"m.py", "modified", 1, 0, "+y"⟩]

/-- Environment of the C8 witness run: a clean three-question model
response. -/
def C8wenv : PREventEnv :=
  ⟨.ok "t", .ok C8wfiles,
   .parsed (.obj [("questions", .arr [.str "a", .str "b", .str "c"])]), .ok 11, 3⟩

/-- Pull-request payload of the C8 witness run. -/
def C8wpayload : PRPayload := ⟨"o", "r", 9, false, "s9", 6⟩

/-- Witness for C8: the store reached by one pull-request event from the
empty database satisfies the invariant. -/
theorem C8_answers_length_invariant_witness :
    reviewInv (handle_pr_event C8wenv C8wpayload []).1 :=
  C8_answers_length_invariant (handle_pr_event C8wenv C8wpayload []).1
    (Reachable.prStep C8wenv C8wpayload [] Reachable.init)
